import Mathlib

/-
Verification of the conversational state machine in src/index.tsx
(a browser chat client for sports-image generation).

Module-level mutable variables of the source are gathered into a
Session record; the rendered chat is a list of messages; the three
remote calls (persona classification, batch image generation, image
variation) are external collaborators, so each event carries the
result the remote service returned for the single call the handler
makes.  JSON.parse is likewise a platform primitive and is modelled
as an abstract function from strings to optional parsed values
(none standing for a parse exception).
-/

namespace SportImages

/-- Who authored a chat message (addMessage sender argument). -/
inductive Sender
| user
| bot
deriving DecidableEq, Repr

/-- The four fixed style options rendered when isStyleRequest is set
(data-style attributes of the style buttons in addMessage). -/
def styleChoices : List String :=
["realistic", "cartoon", "digital art", "cinematic"]

/-- The three fixed satisfaction options rendered when
isSatisfactionRequest is set (data-choice attributes in addMessage). -/
def satisfactionChoices : List String :=
["satisfied", "variations", "retry"]

/-- A rendered chat message.  The DOM structure built by addMessage is
modelled structurally: text content, sender class, loader flag, the
button containers (style / satisfaction) as the lists of their
data attributes, and any inline generated images as their base64
payloads. -/
structure Msg where
  text : String
  sender : Sender
  isLoadingMsg : Bool := false
  styleButtons : List String := []
  satisfactionButtons : List String := []
  images : List String := []
deriving DecidableEq, Repr

/-- addMessage with no options: a plain bot message. -/
def mkBot (text : String) : Msg :=
  { text := text, sender := Sender.bot }

/-- addMessage with no options: a plain user message. -/
def mkUser (text : String) : Msg :=
  { text := text, sender := Sender.user }

/-- addMessage with isLoading: the transient loader bubble. -/
def loaderMsg : Msg :=
  { text := "", sender := Sender.bot, isLoadingMsg := true }

/-- addMessage with isSatisfactionRequest: text plus the three
satisfaction buttons. -/
def mkSatisfaction (text : String) : Msg :=
  { text := text, sender := Sender.bot, satisfactionButtons := satisfactionChoices }

/-- addMessage with isStyleRequest: text plus the four style buttons. -/
def mkStyle (text : String) : Msg :=
  { text := text, sender := Sender.bot, styleButtons := styleChoices }

/-- The module-level mutable variables of the source, gathered into one
record: isLoading, lastUserPrompt, lastGeneratedImage,
lastGeneratedImages, isVariationRequest. -/
structure Session where
  isLoading : Bool
  lastUserPrompt : String
  lastGeneratedImage : Option String
  lastGeneratedImages : List String
  isVariationRequest : Bool
deriving DecidableEq, Repr

/-- Initial values of the module-level variables. -/
def initialSession : Session :=
  { isLoading := false
  , lastUserPrompt := ""
  , lastGeneratedImage := none
  , lastGeneratedImages := []
  , isVariationRequest := false }

/-- A JavaScript runtime value, as produced by JSON.parse.  The num
constructor carries an Int; fractional values play no role in any
property below. -/
inductive JSValue
| null
| bool (b : Bool)
| num (n : Int)
| str (s : String)
| arr (xs : List JSValue)
| obj (fields : List (String × JSValue))
deriving Repr

/-- Property access v[k] for a non-null base value: object lookup, and
undefined (none) on primitives and arrays for the keys used here. -/
def jsGet : JSValue → String → Option JSValue
| JSValue.obj fields, k => (fields.find? (fun kv => kv.1 == k)).map (fun kv => kv.2)
| _, _ => none

/-- JavaScript truthiness of a possibly-undefined value. -/
def jsTruthy : Option JSValue → Bool
| none => false
| some JSValue.null => false
| some (JSValue.bool b) => b
| some (JSValue.num n) => n != 0
| some (JSValue.str s) => s != ""
| some (JSValue.arr _) => true
| some (JSValue.obj _) => true

mutual

/-- String coercion of a JavaScript value, as in template literals. -/
def jsValueToString : JSValue → String
| JSValue.null => "null"
| JSValue.bool true => "true"
| JSValue.bool false => "false"
| JSValue.num n => toString n
| JSValue.str s => s
| JSValue.arr xs => jsListToString xs
| JSValue.obj _ => "[object Object]"

/-- Array toString: elements joined with commas. -/
def jsListToString : List JSValue → String
| [] => ""
| [x] => jsValueToString x
| x :: y :: xs => jsValueToString x ++ "," ++ jsListToString (y :: xs)

end

/-- String coercion of a possibly-undefined value. -/
def jsOptToString : Option JSValue → String
| none => "undefined"
| some v => jsValueToString v

/-- One content part of a variation response: optional text and an
optional inlineData object carrying base64 image bytes (some means
the part has an inlineData object, which is truthy). -/
structure Part where
  text : Option String := none
  inlineData : Option String := none
deriving DecidableEq, Repr

/-- Does the first list occur at the head of the second? -/
def matchHead : List Char → List Char → Bool
| [], _ => true
| _ :: _, [] => false
| p :: ps, c :: cs => p == c && matchHead ps cs

/-- JavaScript String startsWith over the character sequence. -/
def jsStartsWith (s t : String) : Bool := matchHead t.data s.data

/-- JavaScript String endsWith over the character sequence. -/
def jsEndsWith (s t : String) : Bool := matchHead t.data.reverse s.data.reverse

/-- Drop the first n characters. -/
def jsDrop (s : String) (n : Nat) : String := String.mk (s.data.drop n)

/-- Drop the last n characters. -/
def jsDropRight (s : String) (n : Nat) : String :=
  String.mk ((s.data.reverse.drop n).reverse)

/-- JavaScript String trim: whitespace removed from both ends. -/
def jsTrim (s : String) : String :=
  String.mk (((s.data.dropWhile Char.isWhitespace).reverse.dropWhile
    Char.isWhitespace).reverse)

/-- Strip the regex ^(3 backticks)json\n? from the front: the literal
fence marker with an optional single newline, greedily. -/
def dropFenceHead (s : String) : String :=
  if jsStartsWith s "```json\n" then jsDrop s 8
  else if jsStartsWith s "```json" then jsDrop s 7
  else s

/-- Strip the regex (3 backticks)$ from the end of the string. -/
def dropFenceTail (s : String) : String :=
  if jsEndsWith s "```" then jsDropRight s 3
  else s

/-- response.text.trim() followed by the two replace calls of
getPersonaResponse. -/
def stripFence (s : String) : String :=
  dropFenceTail (dropFenceHead (jsTrim s))

/-- getPersonaResponse.  The remote generateContent call either errors
(error) or yields response.text (ok); JSON.parse is the platform
function parse, none meaning it threw.  Any exception is caught and
rethrown as the classification error (modelled as Except.error).  On a
successful parse the parsed value is returned unchecked: the source
casts it with an unchecked type assertion. -/
def getPersonaResponse (parse : String → Option JSValue)
    (remote : Except Unit String) : Except Unit JSValue :=
  match remote with
  | Except.error _ => Except.error ()
  | Except.ok text =>
    match parse (stripFence text) with
    | none => Except.error ()
    | some v => Except.ok v

/-- Apology text of handleUserPrompt when classification fails. -/
def personaErrText : String :=
  "Sorry, I had an issue processing your request. Please try again."

/-- handleUserPrompt: store the prompt, set loading, classify; on a
valid request render the combined confirmation + style affordance and
keep loading on; on an invalid request render the reply and re-enable
input; on any thrown error (remote failure, parse failure, or the
property access throwing on a null parse result) render the apology
and re-enable input. -/
def handleUserPrompt (personaRemote : Except Unit String)
    (parse : String → Option JSValue) (prompt : String)
    (s : Session) (chat : List Msg) : Session × List Msg :=
  let s1 : Session := { s with isLoading := true, lastUserPrompt := prompt }
  match getPersonaResponse parse personaRemote with
  | Except.error _ =>
    ({ s1 with isLoading := false }, chat ++ [mkBot personaErrText])
  | Except.ok v =>
    match v with
    | JSValue.null =>
      ({ s1 with isLoading := false }, chat ++ [mkBot personaErrText])
    | v =>
      let botResp := jsOptToString (jsGet v "botResponse")
      if jsTruthy (jsGet v "isValidRequest") then
        (s1, chat ++ [mkStyle (botResp ++ "<br><br>Now, choose an art style for your image.")])
      else
        ({ s1 with isLoading := false }, chat ++ [mkBot botResp])

/-- The bot message holding the batch image grid: one grid of the
returned images, each with a download link and a vary button. -/
def gridMsg (imgs : List String) : Msg :=
  { text := "", sender := Sender.bot, images := imgs }

/-- generateImage: show a loader, await the batch call, remove the
loader, record the images (clearing the single-image cache), then
either render the grid plus guidance, or the empty-result apology, or
the error apology; every path re-enables input.  The removeChild of
the loader, which is the last appended element, is dropLast. -/
def generateImage (batch : Except Unit (List String))
    (s : Session) (chat : List Msg) : Session × List Msg :=
  let chat1 : List Msg := chat ++ [loaderMsg]
  match batch with
  | Except.error _ =>
    ({ s with lastGeneratedImages := [], lastGeneratedImage := none, isLoading := false },
     chat1.dropLast ++ [mkBot "An error occurred while generating the images. Please try again."])
  | Except.ok imgs =>
    let chat2 := chat1.dropLast
    let s1 : Session := { s with lastGeneratedImages := imgs, lastGeneratedImage := none }
    if imgs.length > 0 then
      ({ s1 with isLoading := false },
       chat2 ++ [gridMsg imgs,
        mkBot "Here are a few options. Click the wand to request changes to a specific image, or describe a new idea below."])
    else
      ({ s1 with lastGeneratedImages := [], isLoading := false },
       chat2 ++ [mkBot "Sorry, I couldn\x27t generate any images. Please try a different description."])

/-- The bot message rendering one variation result image with its
download link. -/
def variationImageMsg (d : String) : Msg :=
  { text := "", sender := Sender.bot, images := [d] }

/-- The for-loop over the parts of the first candidate: every part
with an inlineData object updates lastGeneratedImage and appends an
image message, and sets foundImage. -/
def processParts (parts : List Part) (s : Session) (chat : List Msg)
    (foundImage : Bool) : Session × List Msg × Bool :=
  match parts with
  | [] => (s, chat, foundImage)
  | p :: rest =>
    match p.inlineData with
    | some d =>
      processParts rest { s with lastGeneratedImage := some d }
        (chat ++ [variationImageMsg d]) true
    | none => processParts rest s chat foundImage

/-- generateImageVariation: if there is no stored base image, apologise
and re-enable input without any remote call.  Otherwise set loading,
show a loader, await the variation call, remove the loader; on success
walk the parts of the first candidate (if any), then render the
satisfaction affordance (after an apology when no image part was
found); on a thrown error render only the error apology.  The
feedback text itself is consumed by the remote call. -/
def generateImageVariation (variation : Except Unit (List (List Part)))
    (s : Session) (chat : List Msg) : Session × List Msg :=
  match s.lastGeneratedImage with
  | none =>
    ({ s with isLoading := false },
     chat ++ [mkBot "My apologies, I can\x27t find the last image to modify. Please describe a new image."])
  | some _ =>
    let s1 : Session := { s with isLoading := true }
    let chat1 : List Msg := chat ++ [loaderMsg]
    match variation with
    | Except.error _ =>
      (s1, chat1.dropLast ++ [mkBot "An error occurred while generating the image variation. Please try again."])
    | Except.ok cands =>
      let chat2 := chat1.dropLast
      let walked :=
        match cands with
        | [] => (s1, chat2, false)
        | c0 :: _ => processParts c0 s1 chat2 false
      let s2 := walked.1
      let chat3 := walked.2.1
      if walked.2.2 then
        (s2, chat3 ++ [mkSatisfaction "How does this look? Are you satisfied, or would you like to make more changes?"])
      else
        (s2, chat3 ++
          [mkBot "Sorry, I couldn\x27t generate a variation based on that feedback. Please try describing the change differently.",
           mkSatisfaction "Are you satisfied with the previous image, or would you like to try again?"])

/-- The form submit listener: ignore everything while loading; trim the
input and ignore an empty result; otherwise echo the user message and
route to the variation path (clearing the flag first) or the
new-prompt path. -/
def submitListener (personaRemote : Except Unit String)
    (parse : String → Option JSValue)
    (variation : Except Unit (List (List Part)))
    (inputValue : String) (s : Session) (chat : List Msg) :
    Session × List Msg :=
  if s.isLoading then (s, chat)
  else
    let prompt := jsTrim inputValue
    if prompt == "" then (s, chat)
    else
      let chat1 := chat ++ [mkUser prompt]
      if s.isVariationRequest then
        generateImageVariation variation { s with isVariationRequest := false } chat1
      else
        handleUserPrompt personaRemote parse prompt s chat1

/-- buttonContainer.remove() for a style affordance: clear the style
buttons of the message holding the clicked button. -/
def removeStyleButtons (chat : List Msg) (i : Nat) : List Msg :=
  match chat.get? i with
  | some m => chat.set i { m with styleButtons := [] }
  | none => chat

/-- buttonContainer.remove() for a satisfaction affordance. -/
def removeSatisfactionButtons (chat : List Msg) (i : Nat) : List Msg :=
  match chat.get? i with
  | some m => chat.set i { m with satisfactionButtons := [] }
  | none => chat

/-- A delegated click, identified by what the handler inspects: an
image (fullscreen viewer only), a style button (carrying its message
index, data-style value, and the batch result of the generateImage
call it may trigger), a satisfaction button, or a vary button carrying
its data-image-index. -/
inductive ClickTarget
| image (url : String)
| styleButton (msgIdx : Nat) (style : String) (batch : Except Unit (List String))
| satisfactionButton (msgIdx : Nat) (choice : String)
| varyButton (idx : Nat)

/-- The delegated click listener on the chat container. -/
def clickListener (s : Session) (chat : List Msg) (t : ClickTarget) :
    Session × List Msg :=
  match t with
  | ClickTarget.image _ => (s, chat)
  | ClickTarget.styleButton i style batch =>
    let chat1 := removeStyleButtons chat i
    if style != "" && s.lastUserPrompt != "" then
      generateImage batch s chat1
    else (s, chat1)
  | ClickTarget.satisfactionButton i choice =>
    let chat1 := removeSatisfactionButtons chat i
    if choice == "satisfied" then
      ({ s with isLoading := false, lastGeneratedImage := none, lastGeneratedImages := [] },
       chat1 ++ [mkBot "Great! Your sports image has been generated successfully.",
                 mkBot "What would you like to create next?"])
    else if choice == "retry" then
      ({ s with isLoading := false, lastGeneratedImage := none, lastGeneratedImages := [] },
       chat1 ++ [mkBot "No problem. Please describe the new sports image you have in mind."])
    else if choice == "variations" then
      ({ s with isVariationRequest := true, isLoading := false },
       chat1 ++ [mkBot "Of course. What would you like to change or add to this image?"])
    else (s, chat1)
  | ClickTarget.varyButton idx =>
    match s.lastGeneratedImages.get? idx with
    | some img =>
      if img != "" then
        ({ s with lastGeneratedImage := some img, isVariationRequest := true, isLoading := false },
         chat ++ [mkBot "Of course. What would you like to change or add to this image?"])
      else (s, chat)
    | none => (s, chat)

/-- A user-level event: a form submit (with the results the two remote
calls it may make would return) or a delegated click. -/
inductive Event
| submit (input : String) (personaRemote : Except Unit String)
    (parse : String → Option JSValue)
    (variation : Except Unit (List (List Part)))
| click (t : ClickTarget)

/-- One step of the session: dispatch the event to its listener. -/
def step (s : Session) (chat : List Msg) (e : Event) : Session × List Msg :=
  match e with
  | Event.submit input personaRemote parse variation =>
    submitListener personaRemote parse variation input s chat
  | Event.click t => clickListener s chat t

/-- Run a sequence of events. -/
def run (s : Session) (chat : List Msg) : List Event → Session × List Msg
| [] => (s, chat)
| e :: es =>
  let r := step s chat e
  run r.1 r.2 es

/-- The inline image payloads of a part list, in part order. -/
def imageDatas (parts : List Part) : List String :=
  parts.filterMap Part.inlineData

theorem processParts_eq (parts : List Part) (s : Session) (chat : List Msg)
    (f : Bool) :
    processParts parts s chat f =
      ((match (imageDatas parts).getLast? with
        | some d => { s with lastGeneratedImage := some d }
        | none => s),
       chat ++ (imageDatas parts).map variationImageMsg,
       f || !(imageDatas parts).isEmpty) := by
  induction parts generalizing s chat f with
  | nil => simp [processParts, imageDatas]
  | cons p rest ih =>
    cases hp : p.inlineData with
    | none =>
      simp only [processParts, hp, ih, imageDatas, List.filterMap_cons]
    | some d =>
      simp only [processParts, hp, ih, imageDatas, List.filterMap_cons]
      cases hr : rest.filterMap Part.inlineData with
      | nil => simp
      | cons e es =>
        cases hl : (e :: es).getLast? with
        | some x => simp [hl]
        | none => simp at hl

/-- Claim C4: for every phase and every free-text string, a submission
while busy (isLoading true) is ignored entirely: the session and the
rendered chat are unchanged, and since the listener returns before
touching them, no remote call is made. -/
theorem c4_busy_submission_ignored (personaRemote : Except Unit String)
    (parse : String → Option JSValue)
    (variation : Except Unit (List (List Part))) (input : String)
    (s : Session) (chat : List Msg) (h : s.isLoading = true) :
    submitListener personaRemote parse variation input s chat = (s, chat) := by
  simp [submitListener, h]

theorem c4_busy_submission_ignored_witness :
    ({ initialSession with isLoading := true } : Session).isLoading = true ∧
    submitListener (Except.error ()) (fun _ => none) (Except.error ())
      "a soccer player" { initialSession with isLoading := true } [] =
      ({ initialSession with isLoading := true }, []) :=
  ⟨rfl, c4_busy_submission_ignored (Except.error ()) (fun _ => none)
    (Except.error ()) "a soccer player" { initialSession with isLoading := true }
    [] rfl⟩

/-- Claim C10: a submission whose text trims to the empty string is a
complete no-op while not busy: no message is rendered, no remote call
is made, and no session field changes. -/
theorem c10_blank_submission_noop (personaRemote : Except Unit String)
    (parse : String → Option JSValue)
    (variation : Except Unit (List (List Part))) (input : String)
    (s : Session) (chat : List Msg) (h1 : s.isLoading = false)
    (h2 : jsTrim input = "") :
    submitListener personaRemote parse variation input s chat = (s, chat) := by
  simp [submitListener, h1, h2]

theorem c10_blank_submission_noop_witness :
    initialSession.isLoading = false ∧ jsTrim "   " = "" ∧
    submitListener (Except.error ()) (fun _ => none) (Except.error ())
      "   " initialSession [] = (initialSession, []) :=
  ⟨rfl, rfl, c10_blank_submission_noop (Except.error ()) (fun _ => none)
    (Except.error ()) "   " initialSession [] rfl rfl⟩

/-- Claim C5: a vary click whose index is out of bounds for the stored
image list leaves the session and the chat unchanged and raises no
error; index selection is bounds-checked by the element lookup. -/
theorem c5_out_of_bounds_vary_noop (s : Session) (chat : List Msg) (i : Nat)
    (h : s.lastGeneratedImages.length ≤ i) :
    clickListener s chat (ClickTarget.varyButton i) = (s, chat) := by
  simp [clickListener, List.getElem?_eq_none h]

theorem c5_out_of_bounds_vary_noop_witness :
    initialSession.lastGeneratedImages.length ≤ 2 ∧
    clickListener initialSession [] (ClickTarget.varyButton 2) =
      (initialSession, []) :=
  ⟨by decide, c5_out_of_bounds_vary_noop initialSession [] 2 (by decide)⟩

/-- Claim C9: for every session and chat, choosing satisfied, and
likewise retry, clears both lastGeneratedImages and lastGeneratedImage
and ends with isLoading false and no outstanding affordance: the Idle
phase with busy false. -/
theorem c9_satisfied_and_retry_clear (s : Session) (chat : List Msg)
    (i j : Nat) :
    clickListener s chat (ClickTarget.satisfactionButton i "satisfied") =
      ({ s with
          isLoading := false
          lastGeneratedImage := none
          lastGeneratedImages := [] },
       removeSatisfactionButtons chat i ++
         [mkBot "Great! Your sports image has been generated successfully.",
          mkBot "What would you like to create next?"]) ∧
    clickListener s chat (ClickTarget.satisfactionButton j "retry") =
      ({ s with
          isLoading := false
          lastGeneratedImage := none
          lastGeneratedImages := [] },
       removeSatisfactionButtons chat j ++
         [mkBot "No problem. Please describe the new sports image you have in mind."]) :=
  ⟨rfl, rfl⟩

/-- Claim C6: when the batch call succeeds with zero images, the image
list is left empty (never populated), the apology is rendered, and the
session ends not busy with no pending affordance: the Idle phase.  The
hypotheses state that the style click actually dispatches (a style
attribute and a stored prompt are present, as they are whenever the
style affordance was rendered). -/
theorem c6_empty_batch_apology (s : Session) (chat : List Msg) (i : Nat)
    (style : String) (h1 : style ≠ "") (h2 : s.lastUserPrompt ≠ "") :
    clickListener s chat (ClickTarget.styleButton i style (Except.ok [])) =
      ({ s with
          lastGeneratedImages := []
          lastGeneratedImage := none
          isLoading := false },
       removeStyleButtons chat i ++
         [mkBot "Sorry, I couldn\x27t generate any images. Please try a different description."]) := by
  have hb : (style != "" && s.lastUserPrompt != "") = true := by simp [h1, h2]
  simp [clickListener, hb, generateImage]

theorem c6_empty_batch_apology_witness :
    ("cartoon" : String) ≠ "" ∧
    ({ initialSession with lastUserPrompt := "a goal" } : Session).lastUserPrompt ≠ "" ∧
    clickListener { initialSession with lastUserPrompt := "a goal" } []
        (ClickTarget.styleButton 0 "cartoon" (Except.ok [])) =
      ({ initialSession with
          lastUserPrompt := "a goal"
          lastGeneratedImages := []
          lastGeneratedImage := none
          isLoading := false },
       [mkBot "Sorry, I couldn\x27t generate any images. Please try a different description."]) :=
  ⟨by decide, by decide,
   c6_empty_batch_apology { initialSession with lastUserPrompt := "a goal" }
     [] 0 "cartoon" (by decide) (by decide)⟩

/-- Claim C8: whenever classification succeeds with isValidRequest
true, the handler renders exactly one new bot message and it carries
the style affordance with its four fixed options, and isLoading stays
true, so free text remains blocked until a style is picked. -/
theorem c8_valid_request_style_affordance (personaRemote : Except Unit String)
    (parse : String → Option JSValue)
    (variation : Except Unit (List (List Part))) (input : String)
    (s : Session) (chat : List Msg) (v : JSValue)
    (h1 : s.isLoading = false) (h2 : s.isVariationRequest = false)
    (h3 : jsTrim input ≠ "")
    (h4 : getPersonaResponse parse personaRemote = Except.ok v)
    (h5 : jsGet v "isValidRequest" = some (JSValue.bool true)) :
    submitListener personaRemote parse variation input s chat =
      ({ s with
          isLoading := true
          lastUserPrompt := jsTrim input },
       chat ++ [mkUser (jsTrim input),
         mkStyle (jsOptToString (jsGet v "botResponse") ++
           "<br><br>Now, choose an art style for your image.")]) ∧
    ((submitListener personaRemote parse variation input s chat).2.drop
        chat.length).countP (fun m => !m.styleButtons.isEmpty) = 1 ∧
    styleChoices.length = 4 := by
  cases v with
  | null => simp [jsGet] at h5
  | bool b => simp [jsGet] at h5
  | num n => simp [jsGet] at h5
  | str t => simp [jsGet] at h5
  | arr xs => simp [jsGet] at h5
  | obj fields =>
    have hmain : submitListener personaRemote parse variation input s chat =
        ({ s with
            isLoading := true
            lastUserPrompt := jsTrim input },
         chat ++ [mkUser (jsTrim input),
           mkStyle (jsOptToString (jsGet (JSValue.obj fields) "botResponse") ++
             "<br><br>Now, choose an art style for your image.")]) := by
      simp [submitListener, h1, h2, h3, handleUserPrompt, h4, h5, jsTruthy]
    refine ⟨hmain, ?_, rfl⟩
    rw [hmain]
    simp [mkUser, mkStyle, styleChoices, List.countP_cons]

/-- A concrete JSON.parse environment for the C8 witness. -/
def c8Parse : String → Option JSValue := fun t =>
  if t == "yes" then
    some (JSValue.obj [("isValidRequest", JSValue.bool true),
                       ("botResponse", JSValue.str "Great idea!")])
  else none

theorem c8_valid_request_style_affordance_witness :
    initialSession.isLoading = false ∧
    initialSession.isVariationRequest = false ∧
    jsTrim "a soccer player" ≠ "" ∧
    getPersonaResponse c8Parse (Except.ok "yes") =
      Except.ok (JSValue.obj [("isValidRequest", JSValue.bool true),
                              ("botResponse", JSValue.str "Great idea!")]) ∧
    ((submitListener (Except.ok "yes") c8Parse (Except.error ())
        "a soccer player" initialSession []).2.drop 0).countP
      (fun m => !m.styleButtons.isEmpty) = 1 :=
  ⟨rfl, rfl, by decide, rfl,
   (c8_valid_request_style_affordance (Except.ok "yes") c8Parse
     (Except.error ()) "a soccer player" initialSession []
     (JSValue.obj [("isValidRequest", JSValue.bool true),
                   ("botResponse", JSValue.str "Great idea!")])
     rfl rfl (by decide) rfl rfl).2.1⟩

/-- A session in the variation-feedback phase: the next submission is
variation feedback and a base image is stored. -/
def c1Session : Session :=
  { isLoading := false
  , lastUserPrompt := "a soccer player"
  , lastGeneratedImage := some "baseImage"
  , lastGeneratedImages := []
  , isVariationRequest := true }

/-- Claim C1, evaluated at the failing input: when the variation call
fails, the handler renders the user echo and the error apology only,
leaves isLoading true, and renders no satisfaction affordance at all,
so text input stays disabled with no live button: the user is stuck,
contrary to both the spec and the apology text inviting a retry. -/
theorem c1_variation_error_leaves_user_stuck :
    (submitListener (Except.error ()) (fun _ => none) (Except.error ())
        "make the jersey red" c1Session []).1.isLoading = true ∧
    (submitListener (Except.error ()) (fun _ => none) (Except.error ())
        "make the jersey red" c1Session []).2 =
      [mkUser "make the jersey red",
       mkBot "An error occurred while generating the image variation. Please try again."] ∧
    ((submitListener (Except.error ()) (fun _ => none) (Except.error ())
        "make the jersey red" c1Session []).2.countP
      (fun m => !m.satisfactionButtons.isEmpty)) = 0 :=
  ⟨rfl, by decide, by decide⟩

/-- JSON.parse environment for the C2 trace. -/
def c2Parse : String → Option JSValue := fun t =>
  if t == "sure" then
    some (JSValue.obj [("isValidRequest", JSValue.bool true),
                       ("botResponse", JSValue.str "Sounds great")])
  else none

/-- The C2 trace from the initial session: a validated prompt, a style
pick whose batch call returns four images, then a vary click on
index 2. -/
def c2Events : List Event :=
  [ Event.submit "a soccer player scoring" (Except.ok "sure") c2Parse
      (Except.error ())
  , Event.click (ClickTarget.styleButton 1 "cartoon"
      (Except.ok ["imgA", "imgB", "imgC", "imgD"]))
  , Event.click (ClickTarget.varyButton 2) ]

/-- Claim C2 counterexample: a reachable state (reached by c2Events
from the initial session) holds a non-empty lastGeneratedImages and a
non-empty lastGeneratedImage at the same time: the vary click sets the
single image without clearing the batch. -/
theorem c2_counterexample :
    (run initialSession [] c2Events).1.lastGeneratedImage = some "imgC" ∧
    (run initialSession [] c2Events).1.lastGeneratedImages =
      ["imgA", "imgB", "imgC", "imgD"] ∧
    (run initialSession [] c2Events).1.lastGeneratedImage ≠ none ∧
    (run initialSession [] c2Events).1.lastGeneratedImages ≠ [] :=
  ⟨rfl, rfl, by decide, by decide⟩

/-- Claim C2 amended: the two image fields are not mutually exclusive.
A vary click on a valid index sets lastGeneratedImage to the selected
element while lastGeneratedImages keeps the whole batch, so both
coexist; a satisfied or retry choice clears the two fields together. -/
theorem c2_amended_images_coexist (s : Session) (chat : List Msg)
    (i j : Nat) (img : String)
    (h1 : s.lastGeneratedImages.get? i = some img) (h2 : img ≠ "") :
    (clickListener s chat (ClickTarget.varyButton i)).1.lastGeneratedImage =
      some img ∧
    (clickListener s chat (ClickTarget.varyButton i)).1.lastGeneratedImages =
      s.lastGeneratedImages ∧
    (clickListener s chat
      (ClickTarget.satisfactionButton j "satisfied")).1.lastGeneratedImage = none ∧
    (clickListener s chat
      (ClickTarget.satisfactionButton j "satisfied")).1.lastGeneratedImages = [] ∧
    (clickListener s chat
      (ClickTarget.satisfactionButton j "retry")).1.lastGeneratedImage = none ∧
    (clickListener s chat
      (ClickTarget.satisfactionButton j "retry")).1.lastGeneratedImages = [] := by
  rw [List.get?_eq_getElem?] at h1
  refine ⟨?_, ?_, rfl, rfl, rfl, rfl⟩ <;> simp [clickListener, h1, h2]

/-- A session holding a two-image batch, for the C2 witness. -/
def c2wSession : Session :=
  { isLoading := false
  , lastUserPrompt := "p"
  , lastGeneratedImage := none
  , lastGeneratedImages := ["x", "y"]
  , isVariationRequest := false }

theorem c2_amended_images_coexist_witness :
    c2wSession.lastGeneratedImages.get? 1 = some "y" ∧
    ("y" : String) ≠ "" ∧
    (clickListener c2wSession [] (ClickTarget.varyButton 1)).1.lastGeneratedImage =
      some "y" ∧
    (clickListener c2wSession [] (ClickTarget.varyButton 1)).1.lastGeneratedImages =
      ["x", "y"] :=
  ⟨rfl, by decide,
   (c2_amended_images_coexist c2wSession [] 1 0 "y" rfl (by decide)).1,
   (c2_amended_images_coexist c2wSession [] 1 0 "y" rfl (by decide)).2.1⟩

/-- A session in the variation-feedback phase with a stored base
image, for the C3 counterexample. -/
def c3Session : Session :=
  { isLoading := false
  , lastUserPrompt := "a dunk"
  , lastGeneratedImage := some "oldImage"
  , lastGeneratedImages := []
  , isVariationRequest := true }

/-- Variation response parts holding two inline images separated by a
text part. -/
def c3Parts : List Part :=
  [{ inlineData := some "firstImage" },
   { text := some "caption" },
   { inlineData := some "secondImage" }]

/-- Claim C3 counterexample: with two inline image parts in the
response, the stored image ends as the SECOND (last) one, not the
first as the claim states. -/
theorem c3_counterexample :
    (imageDatas c3Parts).head? = some "firstImage" ∧
    (submitListener (Except.error ()) (fun _ => none) (Except.ok [c3Parts])
        "make it red" c3Session []).1.lastGeneratedImage = some "secondImage" ∧
    (submitListener (Except.error ()) (fun _ => none) (Except.ok [c3Parts])
        "make it red" c3Session []).1.lastGeneratedImage ≠
      (imageDatas c3Parts).head? :=
  ⟨rfl, rfl, by decide⟩

/-- Claim C3 amended: the loop updates the stored image for every
inline image part of the first candidate and renders one image message
per image part, so when at least one image part is present the stored
image ends as the LAST one; when none is present the stored image is
unchanged and an apology plus the satisfaction affordance are
rendered, which is not an error outcome. -/
theorem c3_amended_last_image_wins (s : Session) (chat : List Msg)
    (base : String) (parts : List Part) (cands : List (List Part))
    (h : s.lastGeneratedImage = some base) :
    (imageDatas parts ≠ [] →
      (generateImageVariation (Except.ok (parts :: cands)) s chat).1.lastGeneratedImage =
        (imageDatas parts).getLast? ∧
      (generateImageVariation (Except.ok (parts :: cands)) s chat).2 =
        chat ++ (imageDatas parts).map variationImageMsg ++
          [mkSatisfaction "How does this look? Are you satisfied, or would you like to make more changes?"]) ∧
    (imageDatas parts = [] →
      (generateImageVariation (Except.ok (parts :: cands)) s chat).1.lastGeneratedImage =
        some base ∧
      (generateImageVariation (Except.ok (parts :: cands)) s chat).2 =
        chat ++
          [mkBot "Sorry, I couldn\x27t generate a variation based on that feedback. Please try describing the change differently.",
           mkSatisfaction "Are you satisfied with the previous image, or would you like to try again?"]) := by
  cases hi : imageDatas parts with
  | nil =>
    constructor
    · intro hne
      exact absurd rfl hne
    · intro _
      constructor
      · simp [generateImageVariation, h, processParts_eq, hi]
      · simp [generateImageVariation, h, processParts_eq, hi]
  | cons d ds =>
    constructor
    · intro _
      cases hl : (d :: ds).getLast? with
      | none => simp at hl
      | some x =>
        constructor
        · simp [generateImageVariation, h, processParts_eq, hi, hl]
        · simp [generateImageVariation, h, processParts_eq, hi, hl]
    · intro hemp
      exact absurd hemp (by simp)

theorem c3_amended_last_image_wins_witness :
    c3Session.lastGeneratedImage = some "oldImage" ∧
    imageDatas c3Parts ≠ [] ∧
    (generateImageVariation (Except.ok [c3Parts]) c3Session []).1.lastGeneratedImage =
      (imageDatas c3Parts).getLast? :=
  ⟨rfl, by decide,
   ((c3_amended_last_image_wins c3Session [] "oldImage" c3Parts [] rfl).1
     (by decide)).1⟩

/-- Modelled from the spec: the expected reply shape, an object with a
boolean isValidRequest field and a string botResponse field.  The
source never checks this shape; the predicate only serves to state
that fact. -/
def personaShapeOk (v : JSValue) : Bool :=
  (match jsGet v "isValidRequest" with
   | some (JSValue.bool _) => true
   | _ => false) &&
  (match jsGet v "botResponse" with
   | some (JSValue.str _) => true
   | _ => false)

/-- JSON.parse environment for the C7 counterexample: the platform
JSON.parse accepts any JSON document, in particular the reply 42
parses to the number 42. -/
def c7Parse : String → Option JSValue := fun t =>
  if t == "42" then some (JSValue.num 42) else none

/-- Claim C7 counterexample: the reply 42 is valid JSON but not the
expected two-field shape, yet getPersonaResponse returns it unchecked
instead of failing: the unchecked cast after JSON.parse means the
shape is never validated. -/
theorem c7_counterexample :
    getPersonaResponse c7Parse (Except.ok "42") = Except.ok (JSValue.num 42) ∧
    personaShapeOk (JSValue.num 42) = false ∧
    getPersonaResponse c7Parse (Except.ok "42") ≠ Except.error () :=
  ⟨rfl, rfl,
   fun hc => Except.noConfusion
     (show Except.ok (JSValue.num 42) = Except.error () from hc)⟩

/-- Claim C7 amended: code-fence wrapping is stripped before parsing,
and the call fails exactly when the remote call errors or the stripped
reply is not parseable JSON; a reply that parses to any JSON value,
whether of the expected shape or not, is returned unchecked, and on
failure the caller receives no partial result. -/
theorem c7_amended_parse_is_only_check (parse : String → Option JSValue)
    (remote : Except Unit String) :
    (getPersonaResponse parse remote = Except.error () ↔
      remote = Except.error () ∨
        ∃ t, remote = Except.ok t ∧ parse (stripFence t) = none) ∧
    (∀ t v, remote = Except.ok t → parse (stripFence t) = some v →
      getPersonaResponse parse remote = Except.ok v) ∧
    stripFence "```json\n\x7b\"isValidRequest\": true\x7d```" =
      "\x7b\"isValidRequest\": true\x7d" := by
  refine ⟨?_, ?_, by decide⟩
  · cases remote with
    | error e => simp [getPersonaResponse]
    | ok t =>
      cases hp : parse (stripFence t) with
      | none =>
        constructor
        · intro _; exact Or.inr ⟨t, rfl, hp⟩
        · intro _; simp [getPersonaResponse, hp]
      | some v =>
        constructor
        · intro hc; simp [getPersonaResponse, hp] at hc
        · rintro (h1 | ⟨t2, ht2, hp2⟩)
          · exact absurd h1 (by simp)
          · injection ht2 with he
            subst he
            rw [hp] at hp2
            exact Option.noConfusion hp2
  · intro t v ht hv
    subst ht
    simp [getPersonaResponse, hv]

theorem c7_amended_parse_is_only_check_witness :
    (Except.ok "42" : Except Unit String) = Except.ok "42" ∧
    c7Parse (stripFence "42") = some (JSValue.num 42) ∧
    getPersonaResponse c7Parse (Except.ok "42") = Except.ok (JSValue.num 42) :=
  ⟨rfl, rfl,
   (c7_amended_parse_is_only_check c7Parse (Except.ok "42")).2.1 "42"
     (JSValue.num 42) rfl rfl⟩

end SportImages
